import Mathlib

/-
  Verification of the ios-push plugin capability-routing core
  (src-tauri/plugins/tauri-plugin-ios-push).

  Shallow embedding of desktop.rs, mobile.rs, commands.rs and the
  setup/accessor parts of lib.rs.  The plugin crate references two
  modules that are not present under src/ (models.rs and error.rs);
  those data types are modelled from the spec, as marked on each
  definition.  The Tauri framework itself (PluginHandle, managed
  state) is modelled as the narrow abstract interface the spec
  describes: a named no-argument bridge invocation returning either
  a bridge-level error or a value to be deserialized, and a
  per-process registry holding at most one capability handle.
-/

namespace IosPushPlugin

/-- Modelled from the spec: models.rs is not under src/.  PermissionState is
"an enumerated value representing the outcome of a permission request
(e.g., granted, denied, not-determined)". -/
inductive PermissionState where
  | granted
  | denied
  | notDetermined
deriving DecidableEq, Repr

/-- Modelled from the spec: models.rs is not under src/.  The native response
of getPushToken "is a structure containing a `token` field"; mobile.rs
deserializes it as PushTokenResponse and returns its token field. -/
structure PushTokenResponse where
  token : String
deriving DecidableEq, Repr

/-- A bridge-level error raised by the native plugin bridge invocation:
"deserialization mismatch, missing registered plugin, native-side
exception". -/
inductive BridgeError where
  | invokeError (msg : String)
  | deserializeError (cmd : String)
deriving DecidableEq, Repr

/-- Modelled from the spec: error.rs is not under src/.  The error taxonomy is
UnsupportedPlatform (the stub backend), BridgeFailure ("wraps the underlying
bridge error"), and SetupFailure ("Bootstrap could not register the required
native bridge/plugin handle"). -/
inductive Error where
  | unsupportedPlatform
  | bridgeFailure (e : BridgeError)
  | setupFailure (e : BridgeError)
deriving DecidableEq, Repr

/-- crate::Result from error.rs. -/
abbrev Result (α : Type) : Type := Except Error α

/-- The raw value a native bridge invocation yields before typed
deserialization: a permission state, a token response structure, or
something that matches neither expected shape. -/
inductive BridgeValue where
  | permission (p : PermissionState)
  | tokenResponse (r : PushTokenResponse)
  | other (s : String)
deriving DecidableEq, Repr

/-- tauri::plugin::PluginHandle modelled as the spec's narrow seam:
invoke(operationName, noArgs) yielding either a bridge error or a raw
value. -/
structure PluginHandle where
  invoke : String → Except BridgeError BridgeValue

/-- run_mobile_plugin at result type PermissionState: invoke the named
binding with no arguments and deserialize; a value of any other shape is a
deserialization mismatch, which is a bridge-level error. -/
def PluginHandle.runMobilePluginPermission (h : PluginHandle) (cmd : String) :
    Except BridgeError PermissionState :=
  match h.invoke cmd with
  | .error e => .error e
  | .ok (.permission p) => .ok p
  | .ok _ => .error (.deserializeError cmd)

/-- run_mobile_plugin at result type PushTokenResponse. -/
def PluginHandle.runMobilePluginToken (h : PluginHandle) (cmd : String) :
    Except BridgeError PushTokenResponse :=
  match h.invoke cmd with
  | .error e => .error e
  | .ok (.tokenResponse r) => .ok r
  | .ok _ => .error (.deserializeError cmd)

/-- tauri::AppHandle, opaque to this core; an id distinguishes instances. -/
structure AppHandle where
  id : Nat
deriving DecidableEq, Repr

namespace Desktop

/-- desktop.rs: `pub struct IosPush<R: Runtime>(AppHandle<R>)`, the desktop
no-op implementation.  It wraps only the application handle; it holds no
plugin handle and no bridge. -/
structure IosPush where
  app : AppHandle
deriving DecidableEq, Repr

/-- desktop.rs init: `Ok(IosPush(app.clone()))` — unconditionally succeeds. -/
def init (app : AppHandle) : Result IosPush :=
  .ok ⟨app⟩

/-- desktop.rs: `request_push_permission` returns
`Err(Error::UnsupportedPlatform)`. -/
def IosPush.request_push_permission (_ : IosPush) : Result PermissionState :=
  .error .unsupportedPlatform

/-- desktop.rs: `get_push_token` returns `Err(Error::UnsupportedPlatform)`. -/
def IosPush.get_push_token (_ : IosPush) : Result String :=
  .error .unsupportedPlatform

/-- Named bridge invocations performed by the body of
`request_push_permission` in desktop.rs: the body is a single `Err`
expression and performs none. -/
def IosPush.request_push_permission_invocations (_ : IosPush) : List String :=
  []

/-- Named bridge invocations performed by the body of `get_push_token` in
desktop.rs: none. -/
def IosPush.get_push_token_invocations (_ : IosPush) : List String :=
  []

end Desktop

namespace Mobile

/-- mobile.rs: `pub struct IosPush<R: Runtime>(PluginHandle<R>)` — the mobile
backend wraps the registered native bridge handle. -/
structure IosPush where
  handle : PluginHandle

/-- mobile.rs init: registration of the platform-specific native plugin
(register_android_plugin / register_ios_plugin) either yields the handle or
fails; the `?` operator propagates the failure as the setup error the spec
assigns to Bootstrap registration failure (error.rs is not under src/, so
the error classification is modelled from the spec). -/
def init (register : Except BridgeError PluginHandle) : Result IosPush :=
  match register with
  | .ok h => .ok ⟨h⟩
  | .error e => .error (.setupFailure e)

/-- mobile.rs: `run_mobile_plugin("requestPushPermission", ()).map_err(Into::into)`. -/
def IosPush.request_push_permission (p : IosPush) : Result PermissionState :=
  match p.handle.runMobilePluginPermission "requestPushPermission" with
  | .ok s => .ok s
  | .error e => .error (.bridgeFailure e)

/-- mobile.rs: `let result: PushTokenResponse =
run_mobile_plugin("getPushToken", ()).map_err(Into::into)?; Ok(result.token)`. -/
def IosPush.get_push_token (p : IosPush) : Result String :=
  match p.handle.runMobilePluginToken "getPushToken" with
  | .ok r => .ok r.token
  | .error e => .error (.bridgeFailure e)

/-- Named bridge invocations performed by `request_push_permission` in
mobile.rs: exactly one, the registered binding "requestPushPermission". -/
def IosPush.request_push_permission_invocations (_ : IosPush) : List String :=
  ["requestPushPermission"]

/-- Named bridge invocations performed by `get_push_token` in mobile.rs:
exactly one, the registered binding "getPushToken". -/
def IosPush.get_push_token_invocations (_ : IosPush) : List String :=
  ["getPushToken"]

end Mobile

/-- lib.rs selects at compile time between desktop::IosPush and
mobile::IosPush; the active backend is exactly one of the variants. -/
inductive IosPush where
  | desktop (d : Desktop.IosPush)
  | mobile (m : Mobile.IosPush)

/-- The capability operation dispatched to whichever backend variant is
active. -/
def IosPush.request_push_permission : IosPush → Result PermissionState
  | .desktop d => d.request_push_permission
  | .mobile m => m.request_push_permission

/-- The capability operation dispatched to whichever backend variant is
active. -/
def IosPush.get_push_token : IosPush → Result String
  | .desktop d => d.get_push_token
  | .mobile m => m.get_push_token

/-- The per-process managed-state registry, holding the capability handle
once Bootstrap has registered it (tauri managed state, modelled as the
spec's process-wide registry). -/
structure ManagedState where
  iosPush : Option IosPush

/-- The registry before Bootstrap runs: nothing is registered. -/
def ManagedState.initial : ManagedState :=
  ⟨none⟩

/-- lib.rs setup closure: `app.manage(ios_push)` registers the constructed
handle in the process-wide registry. -/
def ManagedState.manage (st : ManagedState) (h : IosPush) : ManagedState :=
  { st with iosPush := some h }

/-- lib.rs IosPushExt::ios_push: `self.state::<IosPush<R>>().inner()`.
Tauri state lookup panics when the type was never managed; `none` models
that panic (fail-fast, no recoverable error value is produced), `some`
is the registered handle. -/
def ios_push (st : ManagedState) : Option IosPush :=
  st.iosPush

/-- commands.rs: `app.ios_push().request_push_permission()` — look up the
handle via the extension accessor and forward the call unchanged.  The
outer Option is the accessor panic possibility; the inner value is exactly
the backend result. -/
def request_push_permission_command (st : ManagedState) :
    Option (Result PermissionState) :=
  (ios_push st).map IosPush.request_push_permission

/-- commands.rs: `app.ios_push().get_push_token()`. -/
def get_push_token_command (st : ManagedState) : Option (Result String) :=
  (ios_push st).map IosPush.get_push_token

/-- lib.rs setup closure on mobile targets: `let ios_push =
mobile::init(app, api)?; app.manage(ios_push); Ok(())`.  A registration
failure propagates through `?` and the handle is never managed. -/
def setupMobile (register : Except BridgeError PluginHandle)
    (st : ManagedState) : Result ManagedState :=
  match Mobile.init register with
  | .ok p => .ok (st.manage (.mobile p))
  | .error e => .error e

/-- lib.rs setup closure on desktop targets: `let ios_push =
desktop::init(app, api)?; app.manage(ios_push); Ok(())`. -/
def setupDesktop (app : AppHandle) (st : ManagedState) : Result ManagedState :=
  match Desktop.init app with
  | .ok p => .ok (st.manage (.desktop p))
  | .error e => .error e

/-- A call returns exactly one of a success value and a structured error:
never both, never neither. -/
def exclusiveOutcome {α : Type} (r : Result α) : Prop :=
  ((∃ v, r = .ok v) ∧ ¬ ∃ e, r = .error e) ∨
    ((∃ e, r = .error e) ∧ ¬ ∃ v, r = .ok v)

theorem exclusiveOutcome_of_result {α : Type} (r : Result α) :
    exclusiveOutcome r := by
  cases r with
  | error e =>
      refine .inr ⟨⟨e, rfl⟩, ?_⟩
      rintro ⟨v, hv⟩
      exact Except.noConfusion hv
  | ok v =>
      refine .inl ⟨⟨v, rfl⟩, ?_⟩
      rintro ⟨e, he⟩
      exact Except.noConfusion he

/-- C1: on the Desktop/unsupported backend, every call to
request_push_permission and every call to get_push_token returns the
UnsupportedPlatform error (and only that error), and no native bridge
invocation is ever attempted (the bodies perform zero bridge
invocations). -/
theorem desktop_always_unsupported_no_bridge (d : Desktop.IosPush) :
    d.request_push_permission = .error .unsupportedPlatform ∧
      d.get_push_token = .error .unsupportedPlatform ∧
      d.request_push_permission_invocations = [] ∧
      d.get_push_token_invocations = [] :=
  ⟨rfl, rfl, rfl, rfl⟩

/-- Witness for C1 at a concrete desktop handle. -/
theorem desktop_always_unsupported_no_bridge_witness :
    (Desktop.IosPush.mk ⟨0⟩).request_push_permission
        = .error .unsupportedPlatform ∧
      (Desktop.IosPush.mk ⟨0⟩).get_push_token = .error .unsupportedPlatform ∧
      (Desktop.IosPush.mk ⟨0⟩).request_push_permission_invocations = [] ∧
      (Desktop.IosPush.mk ⟨0⟩).get_push_token_invocations = [] :=
  desktop_always_unsupported_no_bridge (Desktop.IosPush.mk ⟨0⟩)

/-- C2: on the mobile backend, whenever the bridge answers "getPushToken"
with a token-response structure whose token field holds s, get_push_token
returns exactly s, unwrapping the response structure. -/
theorem mobile_get_push_token_unwraps (h : PluginHandle) (s : String)
    (hres : h.invoke "getPushToken" = .ok (.tokenResponse ⟨s⟩)) :
    (Mobile.IosPush.mk h).get_push_token = .ok s := by
  simp [Mobile.IosPush.get_push_token, PluginHandle.runMobilePluginToken,
    hres]

/-- Witness for C2: a concrete bridge answering with token "abc123". -/
theorem mobile_get_push_token_unwraps_witness :
    (PluginHandle.mk fun _ => .ok (.tokenResponse ⟨"abc123"⟩)).invoke
          "getPushToken" = .ok (.tokenResponse ⟨"abc123"⟩) ∧
      (Mobile.IosPush.mk
          (PluginHandle.mk fun _ => .ok (.tokenResponse ⟨"abc123"⟩))).get_push_token
        = .ok "abc123" :=
  ⟨rfl,
    mobile_get_push_token_unwraps
      (PluginHandle.mk fun _ => .ok (.tokenResponse ⟨"abc123"⟩)) "abc123" rfl⟩

/-- C3: on the mobile backend, whenever the bridge answers
"requestPushPermission" with a well-formed permission value p,
request_push_permission returns exactly p, unmodified. -/
theorem mobile_request_permission_identity (h : PluginHandle)
    (p : PermissionState)
    (hres : h.invoke "requestPushPermission" = .ok (.permission p)) :
    (Mobile.IosPush.mk h).request_push_permission = .ok p := by
  simp [Mobile.IosPush.request_push_permission,
    PluginHandle.runMobilePluginPermission, hres]

/-- Witness for C3: a concrete bridge answering "granted". -/
theorem mobile_request_permission_identity_witness :
    (PluginHandle.mk fun _ => .ok (.permission .granted)).invoke
          "requestPushPermission" = .ok (.permission .granted) ∧
      (Mobile.IosPush.mk
          (PluginHandle.mk fun _ => .ok (.permission .granted))).request_push_permission
        = .ok .granted :=
  ⟨rfl,
    mobile_request_permission_identity
      (PluginHandle.mk fun _ => .ok (.permission .granted)) .granted rfl⟩

/-- C4: on the mobile backend, a bridge-level error e raised by the native
invocation makes the call return BridgeFailure wrapping e — never
UnsupportedPlatform and never a substituted success value. -/
theorem mobile_bridge_error_wrapped (h : PluginHandle) (e : BridgeError) :
    (h.invoke "requestPushPermission" = .error e →
        (Mobile.IosPush.mk h).request_push_permission
          = .error (.bridgeFailure e)) ∧
      (h.invoke "getPushToken" = .error e →
        (Mobile.IosPush.mk h).get_push_token = .error (.bridgeFailure e)) ∧
      Error.bridgeFailure e ≠ Error.unsupportedPlatform ∧
      (∀ v : PermissionState,
        (Except.error (Error.bridgeFailure e) : Result PermissionState)
          ≠ .ok v) := by
  refine ⟨?_, ?_, ?_, ?_⟩
  · intro hres
    simp [Mobile.IosPush.request_push_permission,
      PluginHandle.runMobilePluginPermission, hres]
  · intro hres
    simp [Mobile.IosPush.get_push_token,
      PluginHandle.runMobilePluginToken, hres]
  · intro hcontra
    exact Error.noConfusion hcontra
  · intro v hcontra
    exact Except.noConfusion hcontra

/-- Witness for C4: a concrete bridge that raises an invocation error. -/
theorem mobile_bridge_error_wrapped_witness :
    (Mobile.IosPush.mk
          (PluginHandle.mk fun _ =>
            .error (.invokeError "boom"))).request_push_permission
        = .error (.bridgeFailure (.invokeError "boom")) ∧
      (Mobile.IosPush.mk
          (PluginHandle.mk fun _ =>
            .error (.invokeError "boom"))).get_push_token
        = .error (.bridgeFailure (.invokeError "boom")) :=
  ⟨(mobile_bridge_error_wrapped
      (PluginHandle.mk fun _ => .error (.invokeError "boom"))
      (.invokeError "boom")).1 rfl,
    (mobile_bridge_error_wrapped
      (PluginHandle.mk fun _ => .error (.invokeError "boom"))
      (.invokeError "boom")).2.1 rfl⟩

/-- C5: for every backend variant and each of the two operations, the call
returns exactly one of a success value or a structured error — never both,
never neither. -/
theorem every_call_exactly_one_outcome (h : IosPush) :
    exclusiveOutcome h.request_push_permission ∧
      exclusiveOutcome h.get_push_token :=
  ⟨exclusiveOutcome_of_result h.request_push_permission,
    exclusiveOutcome_of_result h.get_push_token⟩

/-- Witness for C5 at a concrete (desktop) backend. -/
theorem every_call_exactly_one_outcome_witness :
    exclusiveOutcome (IosPush.desktop (.mk ⟨0⟩)).request_push_permission ∧
      exclusiveOutcome (IosPush.desktop (.mk ⟨0⟩)).get_push_token :=
  every_call_exactly_one_outcome (IosPush.desktop (.mk ⟨0⟩))

/-- C6: the command dispatcher and capability handle are pure pass-through:
with handle h registered, each command delivers exactly the result the
active backend returned — no retries, suppression, caching or extra
logic. -/
theorem commands_pure_pass_through (st : ManagedState) (h : IosPush) :
    request_push_permission_command (st.manage h)
        = some h.request_push_permission ∧
      get_push_token_command (st.manage h) = some h.get_push_token :=
  ⟨rfl, rfl⟩

/-- Witness for C6 at a concrete state and handle. -/
theorem commands_pure_pass_through_witness :
    request_push_permission_command
          (ManagedState.initial.manage (IosPush.desktop (.mk ⟨0⟩)))
        = some (IosPush.desktop (.mk ⟨0⟩)).request_push_permission ∧
      get_push_token_command
          (ManagedState.initial.manage (IosPush.desktop (.mk ⟨0⟩)))
        = some (IosPush.desktop (.mk ⟨0⟩)).get_push_token :=
  commands_pure_pass_through ManagedState.initial (IosPush.desktop (.mk ⟨0⟩))

/-- C7: on mobile targets, a failure to register the native bridge during
Bootstrap propagates as a setup error and aborts initialization: setup
returns that error and never a state, so no capability handle is
constructed or registered. -/
theorem mobile_setup_failure_aborts (e : BridgeError) (st : ManagedState) :
    Mobile.init (.error e) = .error (.setupFailure e) ∧
      setupMobile (.error e) st = .error (.setupFailure e) ∧
      ∀ st2, setupMobile (.error e) st ≠ .ok st2 := by
  refine ⟨rfl, rfl, ?_⟩
  intro st2 hcontra
  exact Except.noConfusion hcontra

/-- Witness for C7 at a concrete registration error and state. -/
theorem mobile_setup_failure_aborts_witness :
    Mobile.init (.error (.invokeError "no plugin"))
        = .error (.setupFailure (.invokeError "no plugin")) ∧
      setupMobile (.error (.invokeError "no plugin")) ManagedState.initial
        = .error (.setupFailure (.invokeError "no plugin")) :=
  ⟨(mobile_setup_failure_aborts (.invokeError "no plugin")
      ManagedState.initial).1,
    (mobile_setup_failure_aborts (.invokeError "no plugin")
      ManagedState.initial).2.1⟩

/-- C8: on desktop targets, Bootstrap construction of the stub backend
cannot fail: desktop init returns a successful capability handle for every
application handle input, and the setup closure registers it. -/
theorem desktop_init_cannot_fail (app : AppHandle) (st : ManagedState) :
    Desktop.init app = .ok ⟨app⟩ ∧
      setupDesktop app st
        = .ok (st.manage (.desktop (Desktop.IosPush.mk app))) :=
  ⟨rfl, rfl⟩

/-- Witness for C8 at a concrete application handle. -/
theorem desktop_init_cannot_fail_witness :
    Desktop.init ⟨7⟩ = .ok ⟨⟨7⟩⟩ ∧
      setupDesktop ⟨7⟩ ManagedState.initial
        = .ok (ManagedState.initial.manage
            (.desktop (Desktop.IosPush.mk ⟨7⟩))) :=
  desktop_init_cannot_fail ⟨7⟩ ManagedState.initial

/-- C9: the extension accessor invoked before Bootstrap has registered the
handle fails fast (lookup yields none, modelling the panic — no
recoverable error value is returned to the caller); after registration it
returns exactly the registered handle. -/
theorem accessor_fail_fast_then_registered :
    ios_push ManagedState.initial = none ∧
      ∀ (st : ManagedState) (h : IosPush), ios_push (st.manage h) = some h :=
  ⟨rfl, fun _ _ => rfl⟩

/-- C10: the desktop stub backend is deterministic and stateless: any two
invocations of either operation, on any handles in any order, return the
identical error value; the operations read nothing from the handle (the
result is independent of it) and, being pure functions, mutate nothing. -/
theorem desktop_deterministic_stateless (d1 d2 : Desktop.IosPush) :
    d1.request_push_permission = d2.request_push_permission ∧
      d1.get_push_token = d2.get_push_token ∧
      d1.request_push_permission = .error .unsupportedPlatform ∧
      d1.get_push_token = .error .unsupportedPlatform :=
  ⟨rfl, rfl, rfl, rfl⟩

/-- Witness for C10 at two distinct concrete desktop handles. -/
theorem desktop_deterministic_stateless_witness :
    (Desktop.IosPush.mk ⟨0⟩).request_push_permission
        = (Desktop.IosPush.mk ⟨1⟩).request_push_permission ∧
      (Desktop.IosPush.mk ⟨0⟩).get_push_token
        = (Desktop.IosPush.mk ⟨1⟩).get_push_token ∧
      (Desktop.IosPush.mk ⟨0⟩).request_push_permission
        = .error .unsupportedPlatform ∧
      (Desktop.IosPush.mk ⟨0⟩).get_push_token
        = .error .unsupportedPlatform :=
  desktop_deterministic_stateless (Desktop.IosPush.mk ⟨0⟩)
    (Desktop.IosPush.mk ⟨1⟩)

end IosPushPlugin
